import Mathlib

/-
  Verification of the pulseaudio native-protocol client (Go).

  The definitions below are a shallow embedding of the client's source:
  pure functions mirror the Go functions, stateful code (the request
  multiplexer loop of handleFrames, the receive goroutine, the updates
  channel) is embedded as explicit step functions on a state type, and
  machine integers are natural numbers with explicit reductions modulo
  2^32 (or 256 for bytes) where Go would overflow or truncate.

  The binary codec (bwrite / bread and the one-byte type-tag constants)
  lives in a repository file that is not part of the sources at hand;
  those pieces are modelled from the specification's tag table and are
  marked "Modelled from the spec" on their doc comments.  Everything
  else is translated directly from client.go, volume.go / its
  context-taking revision, and cli.go.
-/

set_option maxRecDepth 8192

namespace Pulse

/-! ## Byte-level primitives -/

/-- Big-endian encoding of a 32-bit value into four bytes, as
`binary.BigEndian.PutUint32` produces (each byte reduced mod 256,
the value effectively reduced mod 2^32). -/
def be32 (n : ℕ) : List ℕ :=
  [n / 16777216 % 256, n / 65536 % 256, n / 256 % 256, n % 256]

/-- Big-endian decoding of a 32-bit value from the first four bytes of a
list, as `binary.BigEndian.Uint32` reads it; `none` when fewer than four
bytes are available (where Go would panic on the bounds check). -/
def readBE32 : List ℕ → Option (ℕ × List ℕ)
  | b0 :: b1 :: b2 :: b3 :: rest =>
      some (b0 * 16777216 + b1 * 65536 + b2 * 256 + b3, rest)
  | _ => none

/-- Modelled from the spec: the one-byte type tag for uint32 values,
the character L (section 4.1 tag table); the constant itself is defined
in a codec file missing from the sources at hand. -/
def uint32Tag : ℕ := 76

/-- Modelled from the spec: the one-byte type tag for NUL-terminated
strings, the character t (section 4.1 tag table). -/
def stringTag : ℕ := 116

/-- Modelled from the spec: the one-byte type tag for cvolume values,
the character v (section 4.1 tag table). -/
def cvolumeTag : ℕ := 118

/-- Modelled from the spec: the one-byte type tag for length-prefixed
byte arrays, the character x (section 4.1 tag table). -/
def arbitraryTag : ℕ := 120

/-- A uint32 prefixed by its type tag, as `bwrite(..., uint32Tag, v, ...)`
lays it out on the wire. -/
def mkTaggedU32 (n : ℕ) : List ℕ := uint32Tag :: be32 n

/-- A type-checked tagged uint32 read, as `bread(r, uint32Tag, &v)`
performs it: the next wire byte must equal the supplied tag byte,
otherwise decoding fails (spec section 4.1 decoder contract). -/
def decodeTaggedU32 (l : List ℕ) : Option (ℕ × List ℕ) :=
  match l with
  | t :: rest => if t = uint32Tag then readBE32 rest else none
  | [] => none

/-! ## Command codes

Modelled from the spec: the command-code registry is a static table of
the PulseAudio protocol (spec section 9); the file holding it is not
among the sources at hand.  REPLY = 2 and ERROR = 0 also appear
literally in client.go's message "expected reply (2) or error (0)". -/

def commandError : ℕ := 0
def commandReply : ℕ := 2
def commandAuth : ℕ := 8
def commandSetSinkVolume : ℕ := 36
def commandSubscribeEvent : ℕ := 66

/-! ## Request body construction (client.go, request) -/

/-- One argument handed to `bwrite`; the constructors cover the argument
kinds the operations under verification pass (a raw tag byte, a bare
uint32, a raw byte slice, a single byte, a CVolume). -/
inductive WireArg
  | tagByte (b : ℕ)
  | u32 (n : ℕ)
  | raw (bs : List ℕ)
  | byte (b : ℕ)
  | cvol (channels : List ℕ)
deriving DecidableEq

/-- Modelled from the spec: serialization of one `bwrite` argument.
Bare integers are written big-endian with no tag (tag bytes are passed
explicitly by callers), byte slices are written raw, and a cvolume is
written as its tag byte, a one-byte channel count, then one big-endian
uint32 per channel (section 4.1 tag table). -/
def writeArg : WireArg → List ℕ
  | .tagByte b => [b % 256]
  | .u32 n => be32 n
  | .raw bs => bs
  | .byte b => [b % 256]
  | .cvol cs => cvolumeTag :: cs.length % 256 :: (cs.map be32).flatten

/-- Modelled from the spec: `bwrite` serializes its arguments in order. -/
def bwrite (args : List WireArg) : List ℕ := (args.map writeArg).flatten

/-- The frame bytes `Client.request` assembles before submission
(client.go): a dummy length, channel 0xFFFFFFFF, zero offsets and
flags, the tagged command, a tagged placeholder tag 0, then the
caller's arguments. -/
def requestData (cmd : ℕ) (args : List WireArg) : List ℕ :=
  bwrite ([WireArg.u32 0, WireArg.u32 4294967295,
    WireArg.u32 0, WireArg.u32 0, WireArg.u32 0,
    WireArg.tagByte uint32Tag, WireArg.u32 cmd,
    WireArg.tagByte uint32Tag, WireArg.u32 0] ++ args)

/-! ## Volume operations (volume.go and its context-taking revision) -/

/-- Go's conversion `uint32(q)` applied to a nonnegative float value:
truncation toward zero.  The float32 multiplication feeding it is
modelled as exact rational multiplication; at every concrete input used
below the float32 computation is exact, so the model agrees with the
compiled code there. -/
def goTruncU32 (q : ℚ) : ℕ := Int.toNat ⌊q⌋

/-- The single-channel CVolume `SetVolume` builds:
`CVolume{uint32(volume * 0xffff)}`. -/
def setVolumeCVolume (volume : ℚ) : List ℕ := [goTruncU32 (volume * 65535)]

/-- The request `setSinkVolume` submits: SET_SINK_VOLUME with a tagged
sink index 0xFFFFFFFF, the string-tagged sink name with an explicit
NUL terminator byte, and the cvolume. -/
def setSinkVolumeRequest (sinkName : List ℕ) (cvolume : List ℕ) : List ℕ :=
  requestData commandSetSinkVolume
    [WireArg.tagByte uint32Tag, WireArg.u32 4294967295,
     WireArg.tagByte stringTag, WireArg.raw sinkName, WireArg.byte 0,
     WireArg.cvol cvolume]

/-- The frame `SetVolume` submits once ServerInfo has supplied the
default sink name. -/
def setVolumeRequest (defaultSink : List ℕ) (volume : ℚ) : List ℕ :=
  setSinkVolumeRequest defaultSink (setVolumeCVolume volume)

/-! ## Errors and responses -/

/-- The error conditions of the client that the claims mention,
one constructor per distinct Go error value or format string. -/
inductive PAErr
  | clientClosed
  | tooShort
  | couldNotSend
  | readFailed
  | oversize (n : ℕ)
  | invalidHead
  | noPending (tg : ℕ)
  | unexpectedCommand (rsp : ℕ)
  | pulse (cmd code : ℕ)
  | badCookieLength (n : ℕ)
  | versionTooLow (v : ℕ)
  | replyDecodeFailed
  | sinkNotFound (name : List Char)
deriving DecidableEq

/-- What a waiter's response slot receives: the reply body on success,
or an error (the `frame` struct of client.go, viewed through
`request`'s `return response.buff, response.err`). -/
inductive Resp
  | ok (body : List ℕ)
  | fail (e : PAErr)
deriving DecidableEq

/-! ## The receive goroutine (client.go, receive) -/

/-- The maximum allowed frame body size: 16 MiB. -/
def frameSizeMaxAllow : ℕ := 1024 * 1024 * 16

/-- Outcome of one iteration of the receive goroutine: either a frame
body is delivered and the loop continues on the remaining stream, or an
error frame is delivered and the goroutine returns (closing its
channel). -/
inductive RecvOut
  | ok (body : List ℕ) (rest : List ℕ)
  | fail (e : PAErr)
deriving DecidableEq

/-- One iteration of `Client.receive`: read a 4-byte length prefix,
reject a declared body size strictly greater than 16 MiB, otherwise
read the remaining 16 header bytes plus the body and hand over the
bytes past the 20-byte header. -/
def receiveOne (stream : List ℕ) : RecvOut :=
  match readBE32 stream with
  | none => .fail PAErr.readFailed
  | some (n, rest) =>
      if n > frameSizeMaxAllow then .fail (PAErr.oversize n)
      else if rest.length < n + 16 then .fail PAErr.readFailed
      else .ok ((rest.take (n + 16)).drop 16) (rest.drop (n + 16))

/-! ## The request multiplexer (client.go, handleFrames) -/

/-- One entry of the pending table: the allocated tag, an identifier
standing for the request's response channel, and the outbound frame
bytes kept so an ERROR reply can recover the original command from
offset 21. -/
structure PendingEntry where
  tg : ℕ
  slot : ℕ
  data : List ℕ
deriving DecidableEq

/-- The multiplexer's state: the rolling tag cursor of `handleFrames`,
the pending table, and the number of notifications queued in the
updates channel, whose capacity is 1 as NewClient makes it. -/
structure MuxState where
  cursor : ℕ
  pending : List PendingEntry
  updates : ℕ
deriving DecidableEq

/-- The keys of the pending table. -/
def pendingKeys (l : List PendingEntry) : List ℕ := l.map (·.tg)

/-- The function nextAvailableTag of client.go: scan from the cursor for a tag not
in the pending table; after each increment (with uint32 wraparound) a
candidate equal to 0xFFFFFFFF is replaced by 0.  The Go loop is
unbounded; the embedding carries fuel and returns `none` when the fuel
is exhausted (the Go code would loop forever only if every other tag
were pending). -/
def nextAvailableTag : ℕ → ℕ → List ℕ → Option ℕ
  | 0, _, _ => none
  | fuel + 1, t, keys =>
      if t ∈ keys then
        let t1 := (t + 1) % 4294967296
        nextAvailableTag fuel (if t1 = 4294967295 then 0 else t1) keys
      else some t

/-- The call `binary.BigEndian.PutUint32(data[off:], v)`: overwrite four bytes
at offset `off` with the big-endian encoding of `v`; `none` when fewer
than four bytes follow the offset (where Go panics on the bounds
check). -/
def patchU32 (off v : ℕ) (data : List ℕ) : Option (List ℕ) :=
  if off + 4 ≤ data.length then
    some (data.take off ++ be32 v ++ data.drop (off + 4))
  else none

/-- The call `binary.BigEndian.Uint32(data[off:])`: read four bytes big-endian
at offset `off`; `none` when out of bounds (where Go panics). -/
def readU32At (off : ℕ) (data : List ℕ) : Option ℕ :=
  match readBE32 (data.drop off) with
  | some (v, _) => some v
  | none => none

/-- The two type-checked tagged uint32 reads `handleFrames` performs on
every inbound body: `bread(incoming.buff, uint32Tag, &rsp, uint32Tag,
&tag)`. -/
def decodeHead (body : List ℕ) : Option (ℕ × ℕ × List ℕ) :=
  match decodeTaggedU32 body with
  | some (rsp, r1) =>
      match decodeTaggedU32 r1 with
      | some (tg, r2) => some (rsp, tg, r2)
      | none => none
  | none => none

/-- An inbound frame as the receive channel delivers it to
`handleFrames`: a body and an optional transport error. -/
structure RFrame where
  body : List ℕ
  err : Option PAErr
deriving DecidableEq

/-- One event arriving at `handleFrames`' select: an outgoing request
submission (with an identifier for its response slot and whether the
socket write succeeds), closure of either channel, or an inbound
frame. -/
inductive Ev
  | out (slot : ℕ) (data : List ℕ) (writeOk : Bool)
  | outClosed
  | inc (f : RFrame)
  | inClosed
deriving DecidableEq

/-- The result of one `handleFrames` iteration: continue with a new
state (emitting responses and socket writes), return from the loop
(normally or with an error), panic (a Go runtime bounds failure), or
diverge (the unbounded tag scan found no tag). -/
inductive StepRes
  | cont (st : MuxState) (emits : List (ℕ × Resp)) (wrote : List (List ℕ))
  | stop (e : Option PAErr) (st : MuxState) (emits : List (ℕ × Resp))
  | panicked (st : MuxState)
  | diverged
deriving DecidableEq

/-- The outgoing-request branch of `handleFrames`: reject submissions
shorter than 26 bytes, allocate a tag, patch the body length
(`uint32(len(data)) - 20`, computed in uint32 arithmetic) at offset 0
and the tag at offset 26 of the submitted bytes, write the frame and
record the request in the pending table. -/
def outStep (st : MuxState) (slot : ℕ) (data : List ℕ) (writeOk : Bool) : StepRes :=
  if data.length < 26 then .cont st [(slot, Resp.fail PAErr.tooShort)] []
  else
    match nextAvailableTag 4294967296 st.cursor (pendingKeys st.pending) with
    | none => .diverged
    | some t =>
        match patchU32 0 (data.length % 4294967296 + 4294967296 - 20) data with
        | none => .panicked st
        | some d1 =>
            match patchU32 26 t d1 with
            | none => .panicked st
            | some d2 =>
                if writeOk then
                  .cont ⟨t, st.pending ++ [⟨t, slot, d2⟩], st.updates⟩ [] [d2]
                else
                  .stop (some PAErr.couldNotSend) st [(slot, Resp.fail PAErr.couldNotSend)]

/-- The inbound-frame branch of `handleFrames`: an error frame aborts
the loop; the head is decoded as two tagged uint32s; a SUBSCRIBE_EVENT
with tag 0xFFFFFFFF is sent non-blockingly into the capacity-1 updates
channel (dropped when full); otherwise the tag is looked up in the
pending table (absence aborts the loop), the entry is removed, and a
REPLY, ERROR, or unexpected command is delivered to the waiter. -/
def incStep (st : MuxState) (f : RFrame) : StepRes :=
  match f.err with
  | some e => .stop (some e) st []
  | none =>
      match decodeHead f.body with
      | none => .stop (some PAErr.invalidHead) st []
      | some (rsp, tg, rest) =>
          if rsp = commandSubscribeEvent ∧ tg = 4294967295 then
            .cont ⟨st.cursor, st.pending,
              if st.updates < 1 then st.updates + 1 else st.updates⟩ [] []
          else
            match st.pending.find? (fun e => e.tg == tg) with
            | none => .stop (some (PAErr.noPending tg)) st []
            | some p =>
                let st' : MuxState :=
                  ⟨st.cursor, st.pending.filter (fun e => ¬ e.tg == tg), st.updates⟩
                if rsp = commandError then
                  let code := match decodeTaggedU32 rest with
                    | some (c, _) => c
                    | none => 0
                  match readU32At 21 p.data with
                  | none => .panicked st'
                  | some cmd => .cont st' [(p.slot, Resp.fail (PAErr.pulse cmd code))] []
                else if rsp = commandReply then
                  .cont st' [(p.slot, Resp.ok rest)] []
                else
                  .cont st' [(p.slot, Resp.fail (PAErr.unexpectedCommand rsp))] []

/-- One iteration of the `handleFrames` select loop. -/
def muxStep (st : MuxState) : Ev → StepRes
  | .out slot data writeOk => outStep st slot data writeOk
  | .outClosed => .stop none st []
  | .inClosed => .stop none st []
  | .inc f => incStep st f

/-- How a run of the multiplexer loop ended. -/
inductive RunEnd
  | running
  | stopped (e : Option PAErr)
  | panicked
  | diverged
deriving DecidableEq

/-- The observable outcome of feeding a sequence of events through the
multiplexer loop. -/
structure RunOut where
  state : MuxState
  emits : List (ℕ × Resp)
  wrote : List (List ℕ)
  ending : RunEnd
deriving DecidableEq

/-- Run the `handleFrames` loop over a list of events, accumulating
emitted responses and socket writes, until the loop returns, panics,
diverges, or the events are exhausted. -/
def muxRun (st : MuxState) : List Ev → RunOut
  | [] => ⟨st, [], [], .running⟩
  | ev :: evs =>
      match muxStep st ev with
      | .cont st' em wr =>
          let r := muxRun st' evs
          ⟨r.state, em ++ r.emits, wr ++ r.wrote, r.ending⟩
      | .stop e st' em => ⟨st', em, [], .stopped e⟩
      | .panicked st' => ⟨st', [], [], .panicked⟩
      | .diverged => ⟨st, [], [], .diverged⟩

/-- The deferred cleanup of `Client.connect`: every request still in
the pending table receives the "pulseaudio client was closed" error. -/
def teardownEmits (st : MuxState) : List (ℕ × Resp) :=
  st.pending.map (fun p => (p.slot, Resp.fail PAErr.clientClosed))

/-- A consumer reading the updates channel: whether a notification was
available, and the queue afterwards. -/
def readUpdates (u : ℕ) : Bool × ℕ :=
  if 0 < u then (true, u - 1) else (false, u)

/-- The inbound frame body of a subscription event: SUBSCRIBE_EVENT
with the reserved tag 0xFFFFFFFF. -/
def subEventBody : List ℕ := mkTaggedU32 commandSubscribeEvent ++ mkTaggedU32 4294967295

/-- A subscription-event arrival. -/
def subEvent : Ev := Ev.inc ⟨subEventBody, none⟩

/-! ## Authentication (client.go, auth) -/

/-- The client protocol version. -/
def version : ℕ := 32

/-- The AUTH request body: tagged client version and the cookie as a
length-prefixed byte array. -/
def authRequest (cookie : List ℕ) : List ℕ :=
  requestData commandAuth
    [WireArg.tagByte uint32Tag, WireArg.u32 version,
     WireArg.tagByte arbitraryTag, WireArg.u32 cookie.length, WireArg.raw cookie]

/-- What `auth` does before anything reaches the wire. -/
inductive AuthOut
  | send (reqBytes : List ℕ)
  | fail (e : PAErr)
deriving DecidableEq

/-- The pre-flight part of `Client.auth`: a cookie-file read failure is
returned as-is; a cookie whose length differs from 256 fails with the
incorrect-length error; only a 256-byte cookie produces the AUTH
request. -/
def authSend (cookieFile : Sum PAErr (List ℕ)) : AuthOut :=
  match cookieFile with
  | .inl e => .fail e
  | .inr ck =>
      if ck.length ≠ 256 then .fail (PAErr.badCookieLength ck.length)
      else .send (authRequest ck)

/-- The reply-handling part of `Client.auth`: read a tagged uint32 from
the reply, mask it with 0x0000FFFF, and fail when the masked server
version is below 32.  `none` means authentication succeeded. -/
def authHandleReply (body : List ℕ) : Option PAErr :=
  match decodeTaggedU32 body with
  | none => some PAErr.replyDecodeFailed
  | some (v, _) =>
      if v % 65536 < version then some (PAErr.versionTooLow (v % 65536))
      else none

/-! ## Client construction (client.go, NewClient) -/

/-- The configuration fields of `Opts` that address resolution
consults. -/
structure GoOpts where
  protocol : List Char
  addr : List Char
  cookie : List Char
deriving DecidableEq

/-- The process environment `NewClient` reads. -/
structure GoEnv where
  pulseServer : List Char
  pulseCookie : List Char
  home : List Char
  uidStr : List Char
deriving DecidableEq

/-- A Go string literal as a list of characters. -/
def goStr (s : String) : List Char := s.data

/-- The per-user default socket path `/run/user/<uid>/pulse/native`. -/
def defaultSocketAddr (env : GoEnv) : List Char :=
  goStr "/run/user/" ++ env.uidStr ++ goStr "/pulse/native"

/-- The defaults struct `NewClient` builds from the environment. -/
def clientDefaults (env : GoEnv) : GoOpts :=
  ⟨goStr "tcp", env.pulseServer, env.pulseCookie⟩

/-- The call `mergo.Merge(opts, defaults)` in NewClient: the
destination is passed by value, not by pointer, so mergo returns
ErrNonPointerArgument (which the call discards) and merges nothing;
the call leaves the options unchanged. -/
def mergoMergeNonPointer (opts : GoOpts) (_defaults : GoOpts) : GoOpts := opts

/-- The protocol and address `NewClient` leaves in the client, which
`connect` later dials: the (dead) defaults merge, then the empty
address falls back to the per-user socket path, then a `unix://`
prefix forces the unix protocol and is stripped. -/
def resolveClient (opts : GoOpts) (env : GoEnv) : List Char × List Char :=
  let o := mergoMergeNonPointer opts (clientDefaults env)
  let o : GoOpts :=
    if o.addr = [] then ⟨o.protocol, defaultSocketAddr env, o.cookie⟩ else o
  if (goStr "unix://").isPrefixOf o.addr then
    (goStr "unix", o.addr.drop 7)
  else (o.protocol, o.addr)

/-- Modelled from the spec: the address resolution the claim describes,
with source precedence explicit option, then PULSE_SERVER, else the
per-user socket path, and with the default scheme tcp. -/
def resolveClientSpec (opts : GoOpts) (env : GoEnv) : List Char × List Char :=
  let addr :=
    if opts.addr ≠ [] then opts.addr
    else if env.pulseServer ≠ [] then env.pulseServer
    else defaultSocketAddr env
  let protocol := if opts.protocol = [] then goStr "tcp" else opts.protocol
  if (goStr "unix://").isPrefixOf addr then
    (goStr "unix", addr.drop 7)
  else (protocol, addr)

/-! ## Volume query (the context-taking revision of volume.go, Volume) -/

/-- The fields of a decoded sink that `Volume` consults. -/
structure GoSink where
  name : List Char
  cvolume : List ℕ
  muted : Bool
deriving DecidableEq

/-- The field of the decoded server info that `Volume` consults. -/
structure GoServer where
  defaultSink : List Char
deriving DecidableEq

/-- What a call to `Volume` produces. -/
inductive VolOut
  | ok (value : ℚ)
  | fail (e : PAErr)
  | panicked
deriving DecidableEq

/-- The method Volume: a ServerInfo failure is returned; the error of the
Sinks call is assigned but never checked, so on failure the loop ranges
over a nil slice; the first sink whose name equals the default sink
name yields `CVolume[0] / 0xFFFF` (a panic when its CVolume is empty);
otherwise the "Sink not found" error names the default sink. -/
def volumeModel (si : Sum PAErr GoServer) (sinksRes : Sum PAErr (List GoSink)) : VolOut :=
  match si with
  | .inl e => .fail e
  | .inr s =>
      let sinks := match sinksRes with
        | .inr l => l
        | .inl _ => []
      match sinks.find? (fun k => k.name == s.defaultSink) with
      | some k =>
          match k.cvolume.head? with
          | some v => .ok ((v : ℚ) / 65535)
          | none => .panicked
      | none => .fail (PAErr.sinkNotFound s.defaultSink)

end Pulse

namespace Pulse

/-- Round-trip of the big-endian codec on 32-bit values. -/
theorem readBE32_be32 (n : ℕ) (h : n < 4294967296) (rest : List ℕ) :
    readBE32 (be32 n ++ rest) = some (n, rest) := by
  simp only [be32, List.cons_append, List.nil_append, readBE32,
    Option.some.injEq, Prod.mk.injEq]
  refine ⟨?_, trivial⟩
  omega

/-- Round-trip of the big-endian codec for arbitrary naturals: the four
bytes carry the value reduced modulo 2^32. -/
theorem readBE32_be32_mod (n : ℕ) (rest : List ℕ) :
    readBE32 (be32 n ++ rest) = some (n % 4294967296, rest) := by
  simp only [be32, List.cons_append, List.nil_append, readBE32,
    Option.some.injEq, Prod.mk.injEq]
  refine ⟨?_, trivial⟩
  omega

/-- A type-checked tagged read recovers a tagged write. -/
theorem decodeTaggedU32_mk (n : ℕ) (h : n < 4294967296) (rest : List ℕ) :
    decodeTaggedU32 (mkTaggedU32 n ++ rest) = some (n, rest) := by
  simp [mkTaggedU32, decodeTaggedU32, List.cons_append, readBE32_be32 n h rest]

/-- Decoding the two tagged uint32s at the head of an inbound body. -/
theorem decodeHead_mk (a b : ℕ) (ha : a < 4294967296) (hb : b < 4294967296)
    (rest : List ℕ) :
    decodeHead (mkTaggedU32 a ++ (mkTaggedU32 b ++ rest)) = some (a, b, rest) := by
  simp [decodeHead, decodeTaggedU32_mk a ha, decodeTaggedU32_mk b hb]

/-- Teardown resolves every pending waiter with the client-closed
error. -/
theorem teardown_all_closed (st : MuxState) :
    ∀ pr ∈ teardownEmits st, pr.2 = Resp.fail PAErr.clientClosed := by
  intro pr hpr
  simp only [teardownEmits, List.mem_map] at hpr
  obtain ⟨p, _, rfl⟩ := hpr
  rfl

/-- The tag scan only ever returns a tag outside the pending set, and,
when started from a cursor other than the reserved value, never the
reserved value 0xFFFFFFFF. -/
theorem nextAvailableTag_spec_aux (fuel : ℕ) :
    ∀ (t : ℕ) (keys : List ℕ) (r : ℕ),
      nextAvailableTag fuel t keys = some r →
      r ∉ keys ∧ (t ≠ 4294967295 → r ≠ 4294967295) := by
  induction fuel with
  | zero => intro t keys r h; simp [nextAvailableTag] at h
  | succ f ih =>
      intro t keys r h
      rw [nextAvailableTag] at h
      by_cases hm : t ∈ keys
      · rw [if_pos hm] at h
        have h2 := ih _ _ _ h
        refine ⟨h2.1, fun _ => h2.2 ?_⟩
        by_cases hw : (t + 1) % 4294967296 = 4294967295
        · simp [hw]
        · simp [hw]
      · rw [if_neg hm] at h
        obtain rfl : t = r := by simpa using h
        exact ⟨hm, fun ht => ht⟩

end Pulse

namespace Pulse

/-- C4 counterexample: called with the cursor already equal to the
reserved value 0xFFFFFFFF and an empty pending table, nextAvailableTag
returns 0xFFFFFFFF itself, because the reserved value is only skipped
after an increment, never checked on entry. -/
theorem nextAvailableTag_reserved_cex :
    nextAvailableTag 4294967296 4294967295 [] = some 4294967295 := by
  show nextAvailableTag (4294967295 + 1) 4294967295 [] = some 4294967295
  rw [nextAvailableTag]
  simp

/-- C4 (amended): for every pending table and every cursor value other
than the reserved value 0xFFFFFFFF — the only cursor values
handleFrames ever holds, since its cursor starts at 0 and afterwards
equals a previously returned tag — any tag nextAvailableTag returns is
not a key of the pending table and is never 0xFFFFFFFF; consequently
request tags are unique within the pending set and 0xFFFFFFFF is never
allocated to a request that way. -/
theorem nextAvailableTag_fresh (fuel t : ℕ) (keys : List ℕ) (r : ℕ)
    (ht : t ≠ 4294967295) (h : nextAvailableTag fuel t keys = some r) :
    r ∉ keys ∧ r ≠ 4294967295 := by
  have h2 := nextAvailableTag_spec_aux fuel t keys r h
  exact ⟨h2.1, h2.2 ht⟩

/-- C4 witness: a concrete run of the tag scan. -/
theorem nextAvailableTag_fresh_witness :
    (2 : ℕ) ∉ [0, 1] ∧ (2 : ℕ) ≠ 4294967295 :=
  nextAvailableTag_fresh 3 0 [0, 1] 2 (by decide) (by decide)

/-- C7: a cookie whose length differs from 256 bytes makes auth fail
before anything is sent (a read failure likewise), and the AUTH command
bytes are produced only for a cookie of exactly 256 bytes. -/
theorem auth_cookie_length_gate :
    (∀ ck : List ℕ, ck.length ≠ 256 →
      authSend (Sum.inr ck) = AuthOut.fail (PAErr.badCookieLength ck.length)) ∧
    (∀ e : PAErr, authSend (Sum.inl e) = AuthOut.fail e) ∧
    (∀ (ck : List ℕ) (r : List ℕ), authSend (Sum.inr ck) = AuthOut.send r →
      ck.length = 256 ∧ r = authRequest ck) := by
  refine ⟨fun ck h => ?_, fun e => rfl, fun ck r h => ?_⟩
  · simp [authSend, h]
  · by_cases hl : ck.length = 256
    · simp [authSend, hl] at h
      exact ⟨hl, h.symm⟩
    · simp [authSend, hl] at h

/-- C7 witness: a 10-byte cookie is rejected; a 256-byte cookie yields
the AUTH request. -/
theorem auth_cookie_length_gate_witness :
    (authSend (Sum.inr (List.replicate 10 0)) =
      AuthOut.fail (PAErr.badCookieLength (List.replicate 10 (0 : ℕ)).length)) ∧
    ((List.replicate 256 (0 : ℕ)).length = 256 ∧
      authRequest (List.replicate 256 0) = authRequest (List.replicate 256 0)) :=
  ⟨auth_cookie_length_gate.1 (List.replicate 10 0) (by decide),
   auth_cookie_length_gate.2.2 (List.replicate 256 0)
     (authRequest (List.replicate 256 0)) (by simp [authSend])⟩

/-- C8: auth reads a tagged uint32 from the AUTH reply, masks it with
0x0000FFFF, succeeds exactly when the masked server version is at least
32, and fails with the version-too-low error when it is below 32. -/
theorem auth_version_mask (v : ℕ) (rest : List ℕ) (hv : v < 4294967296) :
    (authHandleReply (mkTaggedU32 v ++ rest) = none ↔ 32 ≤ v % 65536) ∧
    (v % 65536 < 32 →
      authHandleReply (mkTaggedU32 v ++ rest) =
        some (PAErr.versionTooLow (v % 65536))) := by
  have hd : decodeTaggedU32 (mkTaggedU32 v ++ rest) = some (v, rest) :=
    decodeTaggedU32_mk v hv rest
  constructor
  · constructor
    · intro h
      by_contra hlt
      push_neg at hlt
      simp [authHandleReply, hd, version, hlt] at h
    · intro h
      have hge : ¬ v % 65536 < 32 := by omega
      simp [authHandleReply, hd, version, hge]
  · intro h
    simp [authHandleReply, hd, version, h]

/-- C8 witness: the reply value 0x10000 or-ed with 32 authenticates;
or-ed with 31 it fails with the version-too-low error. -/
theorem auth_version_mask_witness :
    (authHandleReply (mkTaggedU32 65568 ++ []) = none) ∧
    (authHandleReply (mkTaggedU32 65567 ++ []) =
      some (PAErr.versionTooLow (65567 % 65536))) :=
  ⟨(auth_version_mask 65568 [] (by decide)).1.mpr (by decide),
   (auth_version_mask 65567 [] (by decide)).2 (by decide)⟩

/-- C2: with no explicit address configured and PULSE_SERVER set, the
client nevertheless dials the per-user socket path with an empty
protocol, because the defaults struct built from PULSE_SERVER (and the
default scheme tcp) is handed to mergo.Merge by value, so the merge
fails with a discarded error and changes nothing; the spec-described
resolution would have used PULSE_SERVER with scheme tcp.  The third
conjunct records that the unix prefix stripping itself does work. -/
theorem newClient_ignores_pulse_server :
    resolveClient ⟨[], [], []⟩
        ⟨goStr "tcp.example.com:4713", [], [], goStr "1000"⟩ =
      ([], goStr "/run/user/1000/pulse/native") ∧
    resolveClientSpec ⟨[], [], []⟩
        ⟨goStr "tcp.example.com:4713", [], [], goStr "1000"⟩ =
      (goStr "tcp", goStr "tcp.example.com:4713") ∧
    resolveClient ⟨goStr "tcp", goStr "unix:///tmp/pulse", []⟩
        ⟨[], [], [], goStr "1000"⟩ =
      (goStr "unix", goStr "/tmp/pulse") := by
  refine ⟨?_, ?_, ?_⟩ <;> decide

/-- C10: when ServerInfo succeeds and the Sinks call fails, Volume
discards the Sinks error and returns the sink-not-found error naming
the default sink; and Volume yields a value, namely the first channel
of the matching sink's CVolume divided by 0xFFFF, only when a sink
whose name equals the default sink name is present in the returned
list. -/
theorem volume_discards_sinks_error :
    (∀ (s : GoServer) (e : PAErr),
      volumeModel (Sum.inr s) (Sum.inl e) =
        VolOut.fail (PAErr.sinkNotFound s.defaultSink)) ∧
    (∀ (si : Sum PAErr GoServer) (sr : Sum PAErr (List GoSink)) (v : ℚ),
      volumeModel si sr = VolOut.ok v →
      ∃ (s : GoServer) (l : List GoSink) (k : GoSink) (c : ℕ),
        si = Sum.inr s ∧ sr = Sum.inr l ∧ k ∈ l ∧ k.name = s.defaultSink ∧
        k.cvolume.head? = some c ∧ v = (c : ℚ) / 65535) := by
  constructor
  · intro s e; rfl
  · intro si sr v h
    rcases si with e | s
    · simp [volumeModel] at h
    rcases sr with e | l
    · simp [volumeModel] at h
    simp only [volumeModel] at h
    rcases hf : l.find? (fun k => k.name == s.defaultSink) with _ | k
    · rw [hf] at h; simp at h
    rw [hf] at h
    rcases hh : k.cvolume.head? with _ | c
    · simp [hh] at h
    simp only [hh, VolOut.ok.injEq] at h
    refine ⟨s, l, k, c, rfl, rfl, List.mem_of_find?_eq_some hf, ?_, hh, h.symm⟩
    have := List.find?_some hf
    simpa using this

/-- C10 witness: concrete evaluations of both conjuncts. -/
theorem volume_discards_sinks_error_witness :
    (volumeModel (Sum.inr ⟨goStr "X"⟩) (Sum.inl PAErr.readFailed) =
      VolOut.fail (PAErr.sinkNotFound (GoServer.mk (goStr "X")).defaultSink)) ∧
    (∃ (s : GoServer) (l : List GoSink) (k : GoSink) (c : ℕ),
      (Sum.inr ⟨goStr "X"⟩ : Sum PAErr GoServer) = Sum.inr s ∧
      (Sum.inr [⟨goStr "X", [32767], false⟩] : Sum PAErr (List GoSink)) =
        Sum.inr l ∧
      k ∈ l ∧ k.name = s.defaultSink ∧ k.cvolume.head? = some c ∧
      (((32767 : ℕ) : ℚ) / 65535) = (c : ℚ) / 65535) :=
  ⟨volume_discards_sinks_error.1 ⟨goStr "X"⟩ PAErr.readFailed,
   volume_discards_sinks_error.2 (Sum.inr ⟨goStr "X"⟩)
     (Sum.inr [⟨goStr "X", [32767], false⟩]) (((32767 : ℕ) : ℚ) / 65535) rfl⟩

end Pulse

namespace Pulse

/-- The exact value of the truncated product at volume one half. -/
theorem floor_half_65535 : ⌊((1 : ℚ) / 2) * 65535⌋ = 32767 := by
  rw [Int.floor_eq_iff]
  constructor <;> norm_num

/-- C1 counterexample: at volume 0.5 the emitted cvolume channel is
0x7FFF = 32767 (the Go conversion truncates 32767.5), while rounding
0.5 times 0xFFFF gives 0x8000 = 32768; so the channel does not equal
the rounded product, and the claim's own expectation of 0x7FFF for
volume 0.5 is met by truncation, not rounding. -/
theorem setVolume_round_cex :
    setVolumeCVolume (1 / 2) = [32767] ∧
    round (((1 : ℚ) / 2) * 65535) = 32768 := by
  constructor
  · simp only [setVolumeCVolume, goTruncU32, floor_half_65535]
    rfl
  · rw [round_eq]
    have h : ((1 : ℚ) / 2) * 65535 + 1 / 2 = ((32768 : ℤ) : ℚ) := by norm_num
    rw [h, Int.floor_intCast]

/-- C1 (amended): for every volume value v and default sink name,
SetVolume submits a SET_SINK_VOLUME request whose arguments are the
sink index 0xFFFFFFFF, the NUL-terminated default sink name, and a
single-channel cvolume whose one channel is v times 0xFFFF truncated
toward zero (the Go float-to-uint32 conversion), not rounded; in
particular SetVolume(0.5) emits a cvolume with one channel of value
0x7FFF. -/
theorem setVolume_frame_truncates :
    (∀ (name : List ℕ) (v : ℚ),
      setVolumeRequest name v =
        be32 0 ++ be32 4294967295 ++ be32 0 ++ be32 0 ++ be32 0 ++
        [uint32Tag] ++ be32 commandSetSinkVolume ++ [uint32Tag] ++ be32 0 ++
        [uint32Tag] ++ be32 4294967295 ++
        [stringTag] ++ name ++ [0] ++
        [cvolumeTag, 1] ++ be32 (goTruncU32 (v * 65535))) ∧
    setVolumeCVolume (1 / 2) = [32767] := by
  constructor
  · intro name v
    simp [setVolumeRequest, setSinkVolumeRequest, requestData, bwrite, writeArg,
      setVolumeCVolume, uint32Tag, stringTag, cvolumeTag]
  · simp only [setVolumeCVolume, goTruncU32, floor_half_65535]
    rfl

/-- C3: a declared body size strictly greater than 16 MiB makes the
receiver deliver an oversize error frame and stop; the frame handler
aborts on that error frame, and teardown then resolves every pending
request with the client-closed error. -/
theorem oversize_frame_teardown (n : ℕ) (rest : List ℕ) (st : MuxState)
    (body : List ℕ) (h1 : frameSizeMaxAllow < n) (h2 : n < 4294967296) :
    receiveOne (be32 n ++ rest) = RecvOut.fail (PAErr.oversize n) ∧
    muxStep st (Ev.inc ⟨body, some (PAErr.oversize n)⟩) =
      StepRes.stop (some (PAErr.oversize n)) st [] ∧
    ∀ pr ∈ teardownEmits st, pr.2 = Resp.fail PAErr.clientClosed := by
  refine ⟨?_, rfl, teardown_all_closed st⟩
  simp [receiveOne, readBE32_be32 n h2 rest, h1]

/-- C3 witness: body size 16 MiB plus one, with one pending request. -/
theorem oversize_frame_teardown_witness :
    receiveOne (be32 16777217 ++ []) = RecvOut.fail (PAErr.oversize 16777217) ∧
    muxStep ⟨0, [⟨5, 1, List.replicate 30 0⟩], 0⟩
        (Ev.inc ⟨[], some (PAErr.oversize 16777217)⟩) =
      StepRes.stop (some (PAErr.oversize 16777217))
        ⟨0, [⟨5, 1, List.replicate 30 0⟩], 0⟩ [] ∧
    ∀ pr ∈ teardownEmits ⟨0, [⟨5, 1, List.replicate 30 0⟩], 0⟩,
      pr.2 = Resp.fail PAErr.clientClosed :=
  oversize_frame_teardown 16777217 [] ⟨0, [⟨5, 1, List.replicate 30 0⟩], 0⟩ []
    (by decide) (by decide)

end Pulse

namespace Pulse

/-- C5: an inbound reply or error frame whose tag is not in the pending
table makes the frame handler abort with the unknown-tag error
(tearing the connection down), and teardown resolves every pending
waiter with the client-closed error. -/
theorem unknown_tag_teardown (st : MuxState) (rsp tg : ℕ) (rest : List ℕ)
    (hr : rsp = commandError ∨ rsp = commandReply)
    (hrsp : rsp < 4294967296) (htg : tg < 4294967296)
    (hmem : tg ∉ pendingKeys st.pending) :
    muxStep st (Ev.inc ⟨mkTaggedU32 rsp ++ (mkTaggedU32 tg ++ rest), none⟩) =
      StepRes.stop (some (PAErr.noPending tg)) st [] ∧
    ∀ pr ∈ teardownEmits st, pr.2 = Resp.fail PAErr.clientClosed := by
  refine ⟨?_, teardown_all_closed st⟩
  have hcond : ¬ (rsp = commandSubscribeEvent ∧ tg = 4294967295) := by
    rcases hr with h | h <;>
      simp [h, commandError, commandReply, commandSubscribeEvent]
  have hfind : st.pending.find? (fun e => e.tg == tg) = none := by
    apply List.find?_eq_none.mpr
    intro x hx
    simp only [beq_iff_eq]
    intro heq
    exact hmem (List.mem_map.mpr ⟨x, hx, heq⟩)
  show incStep st ⟨mkTaggedU32 rsp ++ (mkTaggedU32 tg ++ rest), none⟩ = _
  simp [incStep, decodeHead_mk rsp tg hrsp htg rest, hcond, hfind]

/-- C5 witness: a REPLY frame with tag 7 against a pending table whose
only key is 1. -/
theorem unknown_tag_teardown_witness :
    muxStep ⟨0, [⟨1, 9, List.replicate 30 0⟩], 0⟩
        (Ev.inc ⟨mkTaggedU32 2 ++ (mkTaggedU32 7 ++ []), none⟩) =
      StepRes.stop (some (PAErr.noPending 7))
        ⟨0, [⟨1, 9, List.replicate 30 0⟩], 0⟩ [] ∧
    ∀ pr ∈ teardownEmits ⟨0, [⟨1, 9, List.replicate 30 0⟩], 0⟩,
      pr.2 = Resp.fail PAErr.clientClosed :=
  unknown_tag_teardown ⟨0, [⟨1, 9, List.replicate 30 0⟩], 0⟩ 2 7 []
    (Or.inr rfl) (by decide) (by decide) (by decide)

end Pulse

namespace Pulse

/-- One subscription-event arrival bumps only the updates queue,
capped at the channel capacity of one. -/
theorem muxStep_subEvent (st : MuxState) :
    muxStep st subEvent =
      StepRes.cont ⟨st.cursor, st.pending,
        if st.updates < 1 then st.updates + 1 else st.updates⟩ [] [] := by
  have hd : decodeHead subEventBody =
      some (commandSubscribeEvent, 4294967295, []) := by decide
  show incStep st ⟨subEventBody, none⟩ = _
  simp [incStep, hd, commandSubscribeEvent]

/-- Once one notification is queued, further subscription events leave
the full capacity-1 channel unchanged and emit nothing. -/
theorem muxRun_subEvents_full (c : ℕ) (p : List PendingEntry) (m : ℕ) :
    muxRun ⟨c, p, 1⟩ (List.replicate m subEvent) =
      ⟨⟨c, p, 1⟩, [], [], RunEnd.running⟩ := by
  induction m with
  | zero => rfl
  | succ k ih =>
      rw [List.replicate_succ]
      simp [muxRun, muxStep_subEvent, ih]

end Pulse

namespace Pulse

/-- C6: a burst of k subscription-event frames (SUBSCRIBE_EVENT with
the reserved tag 0xFFFFFFFF) arriving while nothing reads the updates
channel queues exactly one notification — the channel capacity is one
and the non-blocking send drops the other k-1 — emits nothing to
waiters, writes nothing, leaves the loop running with the pending
table untouched, and a consumer read then leaves the channel empty. -/
theorem subscribe_burst_coalesced (st : MuxState) (k : ℕ)
    (h0 : st.updates = 0) (hk : 1 ≤ k) :
    (muxRun st (List.replicate k subEvent)).state =
      ⟨st.cursor, st.pending, 1⟩ ∧
    (muxRun st (List.replicate k subEvent)).emits = [] ∧
    (muxRun st (List.replicate k subEvent)).wrote = [] ∧
    (muxRun st (List.replicate k subEvent)).ending = RunEnd.running ∧
    readUpdates 1 = (true, 0) := by
  obtain ⟨m, rfl⟩ : ∃ m, k = m + 1 := ⟨k - 1, by omega⟩
  have h1 : muxStep st subEvent =
      StepRes.cont ⟨st.cursor, st.pending, 1⟩ [] [] := by
    rw [muxStep_subEvent, h0]
    norm_num
  rw [List.replicate_succ]
  simp [muxRun, h1, muxRun_subEvents_full, readUpdates]

/-- C6 witness: a burst of three events against an empty state. -/
theorem subscribe_burst_coalesced_witness :
    ((muxRun ⟨0, [], 0⟩ (List.replicate 3 subEvent)).state =
      ⟨(0 : ℕ), ([] : List PendingEntry), 1⟩ ∧
    (muxRun ⟨0, [], 0⟩ (List.replicate 3 subEvent)).emits = [] ∧
    (muxRun ⟨0, [], 0⟩ (List.replicate 3 subEvent)).wrote = [] ∧
    (muxRun ⟨0, [], 0⟩ (List.replicate 3 subEvent)).ending = RunEnd.running ∧
    readUpdates 1 = (true, 0)) :=
  subscribe_burst_coalesced ⟨0, [], 0⟩ 3 rfl (by decide)

end Pulse

namespace Pulse

/-- C9 counterexample: a submitted request of exactly 26 bytes passes
the minimum-length check, but patching the tag needs the four bytes at
offsets 26..29, so `binary.BigEndian.PutUint32(p.data[26:], tag)`
panics on its bounds check instead of patching, writing, and recording
the request. -/
theorem patch_tag_short_panics_cex :
    muxStep ⟨0, [], 0⟩ (Ev.out 7 (List.replicate 26 0) true) =
      StepRes.panicked ⟨0, [], 0⟩ := by decide

/-- C9 (amended): for every submitted request of at least 30 bytes
(the smallest length whose tag patch at offset 26 is in bounds; the
request builder always produces at least 30), the multiplexer patches
the body length (total length minus 20) at offset 0 and the allocated
tag at offset 26 of the submitted bytes, then writes the patched frame
and records the request under the new tag - previously unused - in the
pending table. -/
theorem request_patch_offsets (st : MuxState) (slot : ℕ) (data : List ℕ)
    (t : ℕ) (h30 : 30 ≤ data.length) (hlen : data.length < 4294967296)
    (ht : nextAvailableTag 4294967296 st.cursor (pendingKeys st.pending) =
      some t) :
    ∃ d2,
      muxStep st (Ev.out slot data true) =
        StepRes.cont ⟨t, st.pending ++ [⟨t, slot, d2⟩], st.updates⟩ [] [d2] ∧
      readU32At 0 d2 = some (data.length - 20) ∧
      readU32At 26 d2 = some (t % 4294967296) ∧
      d2.length = data.length ∧
      t ∉ pendingKeys st.pending := by
  have hnot : ¬ data.length < 26 := by omega
  have hp1 : patchU32 0 (data.length % 4294967296 + 4294967276) data =
      some (be32 (data.length % 4294967296 + 4294967276) ++ data.drop 4) := by
    simp only [patchU32]
    rw [if_pos (by omega : 0 + 4 ≤ data.length)]
    simp
  have hc : 26 + 4 ≤
      (be32 (data.length % 4294967296 + 4294967276) ++ data.drop 4).length := by
    simp [be32]
    omega
  have hp2 : patchU32 26 t
      (be32 (data.length % 4294967296 + 4294967276) ++ data.drop 4) =
      some (be32 (data.length % 4294967296 + 4294967276) ++
        ((data.drop 4).take 22 ++ (be32 t ++ data.drop 30))) := by
    simp only [patchU32, if_pos hc]
    simp [be32, List.take_append_eq_append_take,
      List.drop_append_eq_append_drop, List.drop_drop, List.append_assoc]
  refine ⟨be32 (data.length % 4294967296 + 4294967276) ++
    ((data.drop 4).take 22 ++ (be32 t ++ data.drop 30)), ?_, ?_, ?_, ?_,
    (nextAvailableTag_spec_aux 4294967296 st.cursor
      (pendingKeys st.pending) t ht).1⟩
  · show outStep st slot data true = _
    simp [outStep, hnot, ht, hp1, hp2]
  · simp only [readU32At, List.drop_zero, readBE32_be32_mod]
    exact congrArg some (by omega)
  · have hlen26 : (be32 (data.length % 4294967296 + 4294967276) ++
        (data.drop 4).take 22).length = 26 := by
      simp [be32, List.length_take]
      omega
    have hdrop : (be32 (data.length % 4294967296 + 4294967276) ++
        ((data.drop 4).take 22 ++ (be32 t ++ data.drop 30))).drop 26 =
        be32 t ++ data.drop 30 := by
      rw [← List.append_assoc]
      exact List.drop_left' hlen26
    simp [readU32At, hdrop, readBE32_be32_mod]
  · simp [be32, List.length_take]
    omega

/-- C9 witness: a 30-byte submission against an empty pending table. -/
theorem request_patch_offsets_witness :
    30 ≤ (List.replicate 30 (7 : ℕ)).length ∧
    ∃ d2,
      muxStep ⟨0, [], 0⟩ (Ev.out 3 (List.replicate 30 7) true) =
        StepRes.cont ⟨0, ([] : List PendingEntry) ++ [⟨0, 3, d2⟩], 0⟩ [] [d2] ∧
      readU32At 0 d2 = some ((List.replicate 30 (7 : ℕ)).length - 20) ∧
      readU32At 26 d2 = some (0 % 4294967296) ∧
      d2.length = (List.replicate 30 (7 : ℕ)).length ∧
      0 ∉ pendingKeys ([] : List PendingEntry) :=
  ⟨by decide, request_patch_offsets ⟨0, [], 0⟩ 3 (List.replicate 30 7) 0
    (by decide) (by decide) (by decide)⟩

end Pulse
